import Mathlib

/-!
Verification development for the msgforwarder message-routing engine
(`msgforwarder/forwarder.py` and `msgforwarder/transports/`).

The Python code is shallowly embedded: configuration values (parsed
YAML/JSON) are modelled by `JVal`, client-config dicts by association
lists, exceptions by `PyErr` results, and the routing/validation
functions by executable Lean functions that mirror the source line by
line.  Spec-side predicates (written from the specification's words,
for comparison against the code) are clearly marked as such.
-/

namespace Msgforwarder

/-- Model of a parsed YAML/JSON value, as handed to `Forwarder.validate`
and `Forwarder.on_message`.  Objects are association lists (parsed JSON
objects have distinct keys). -/
inductive JVal where
  | str (s : String)
  | num (n : Int)
  | bool (b : Bool)
  | null
  | arr (xs : List JVal)
  | obj (fields : List (String × JVal))

/-- Dictionary lookup on a parsed JSON object (`d[k]` / `k in d`). -/
def jlookup : List (String × JVal) → String → Option JVal
  | [], _ => none
  | (k2, v) :: rest, k => if k2 = k then some v else jlookup rest k

/-- `{"type": "string"}` check of jsonschema. -/
def jIsStr : JVal → Bool
  | .str _ => true
  | _ => false

/-- `{"type": "array", "items": {"type": "string"}}` check of jsonschema. -/
def jIsStrArr : JVal → Bool
  | .arr xs => xs.all jIsStr
  | _ => false

/-- The property names admitted by `RULE_SCHEMA`
(`additionalProperties: false`). -/
def RULE_SCHEMA_keys : List String :=
  ["from", "send_to", "nicknames", "ignore_nicknames", "regexp"]

/-- `jsonschema.validate(rule, RULE_SCHEMA)` from `forwarder.py`:
an object, only the five declared keys, `from`/`send_to` required
strings, the two nickname lists arrays of strings, `regexp` a string. -/
def ruleSchemaOk : JVal → Bool
  | .obj fs =>
      fs.all (fun kv => RULE_SCHEMA_keys.contains kv.1)
      && (match jlookup fs "from" with | some v => jIsStr v | none => false)
      && (match jlookup fs "send_to" with | some v => jIsStr v | none => false)
      && (match jlookup fs "nicknames" with | some v => jIsStrArr v | none => true)
      && (match jlookup fs "ignore_nicknames" with | some v => jIsStrArr v | none => true)
      && (match jlookup fs "regexp" with | some v => jIsStr v | none => true)
  | _ => false

/-- View of a (schema-valid) rule object: the five fields the code reads.
`Option` distinguishes an absent optional key from a present one, exactly
as `"nicknames" in rule` does in the source. -/
structure Rule where
  from_ : String
  send_to : String
  nicknames : Option (List String)
  ignore_nicknames : Option (List String)
  regexp : Option String

/-- String content of a JSON value known (by the schema) to be a string. -/
def jStrD : Option JVal → String
  | some (.str s) => s
  | _ => ""

/-- String-list content of an optional JSON array of strings. -/
def jStrListD : Option JVal → Option (List String)
  | some (.arr xs) => some (xs.map (fun x => jStrD (some x)))
  | _ => none

/-- Read the five rule fields out of a rule object, as the dict accesses
`rule["from"]`, `rule["send_to"]`, `rule.get("ignore_nicknames", [])`,
`"nicknames" in rule`, `"regexp" in rule` do in the source. -/
def decodeRule : JVal → Rule
  | .obj fs =>
      { from_ := jStrD (jlookup fs "from"),
        send_to := jStrD (jlookup fs "send_to"),
        nicknames := jStrListD (jlookup fs "nicknames"),
        ignore_nicknames := jStrListD (jlookup fs "ignore_nicknames"),
        regexp := match jlookup fs "regexp" with | some (.str s) => some s | _ => none }
  | _ => { from_ := "", send_to := "", nicknames := none,
           ignore_nicknames := none, regexp := none }

/-- Helper for `s.split("@", 1)` followed by two-element unpacking:
splits at the FIRST `'@'`; `none` models the `ValueError` raised by
`a, b = s.split("@", 1)` when the string holds no `'@'`. -/
def splitOnceAux : List Char → Option (List Char × List Char)
  | [] => none
  | c :: cs =>
      if c = '@' then some ([], cs)
      else (splitOnceAux cs).map (fun p => (c :: p.1, p.2))

/-- `channel, client_id = s.split("@", 1)` from `forwarder.py` (used both
in `Forwarder.on_message` and `Forwarder.validate`). -/
def split1 (s : String) : Option (String × String) :=
  (splitOnceAux s.data).map (fun p => (String.mk p.1, String.mk p.2))

/-- Exceptions the embedded code can raise. -/
inductive PyErr where
  | valueError
  | keyError (k : String)
  | reError
  | validationError (offending : JVal)

/-! ### A regular-expression fragment

`re.match(pattern, subject)` is modelled for the fragment of Python
regex syntax used in this development: literal characters, `.`
(any character but newline) and a postfix `*`.  Any other
metacharacter (`( ) [ ] \x7b \x7d | + ? ^ $ \`, or a dangling `*`)
is rejected by the parser, which models `re.error`; the claims only
evaluate the matcher on patterns inside the fragment or on patterns
(such as a lone `(`) that are errors both here and in Python. -/

/-- Regular expressions (Brzozowski-style). -/
inductive RE where
  | emp
  | eps
  | chr (c : Char)
  | dot
  | seq (a b : RE)
  | alt (a b : RE)
  | star (a : RE)

/-- Metacharacters outside the supported fragment. -/
def reSpecial (c : Char) : Bool :=
  c ∈ ['(', ')', '[', ']', '\x7b', '\x7d', '|', '+', '?', '^', '$', '\\', '*']

/-- Parse a pattern into a list of (possibly starred) atoms;
`none` models `re.error`. -/
def reParseAux : List Char → Option (List RE)
  | [] => some []
  | c :: '*' :: rest =>
      if reSpecial c then none
      else (reParseAux rest).map
        (fun ts => RE.star (if c = '.' then RE.dot else RE.chr c) :: ts)
  | c :: rest =>
      if reSpecial c then none
      else (reParseAux rest).map
        (fun ts => (if c = '.' then RE.dot else RE.chr c) :: ts)

/-- Sequence a parsed atom list into one regular expression. -/
def toksRE (l : List RE) : RE := l.foldr RE.seq RE.eps

/-- Does the regular expression accept the empty string? -/
def nullable : RE → Bool
  | .emp => false
  | .eps => true
  | .chr _ => false
  | .dot => false
  | .seq a b => nullable a && nullable b
  | .alt a b => nullable a || nullable b
  | .star _ => true

/-- Brzozowski derivative; `.` matches any character except newline,
as in Python without `re.DOTALL`. -/
def deriv : RE → Char → RE
  | .emp, _ => .emp
  | .eps, _ => .emp
  | .chr c, d => if c = d then .eps else .emp
  | .dot, d => if d = '\n' then .emp else .eps
  | .seq a b, d =>
      if nullable a then .alt (.seq (deriv a d) b) (deriv b d)
      else .seq (deriv a d) b
  | .alt a b, d => .alt (deriv a d) (deriv b d)
  | .star a, d => .seq (deriv a d) (.star a)

/-- Does the regular expression match some prefix of the character list?
(`re.match` anchors at the start only.) -/
def reMatchPrefix : RE → List Char → Bool
  | r, [] => nullable r
  | r, c :: cs => nullable r || reMatchPrefix (deriv r c) cs

/-- `re.match(pattern, subject)` as a Boolean: `none` models `re.error`
(invalid pattern), `some b` whether a match at the start exists. -/
def re_match (pattern subj : String) : Option Bool :=
  (reParseAux pattern.data).map (fun ts => reMatchPrefix (toksRE ts) subj.data)

/-! ### Rule matching (`Forwarder.on_message`) -/

/-- The arguments of the `say(...)` call issued for a forwarded message:
`self._clients[to_client_id]["client"].say(author=user,
from_client=from_client_id, from_target=target, target=to_channel,
msg=text)`. -/
structure Send where
  dst : String
  author : String
  from_client : String
  from_target : String
  target : String
  msg : String

/-- `"nicknames" in rule and user not in rule["nicknames"]`. -/
def nicknamesReject (r : Rule) (user : String) : Bool :=
  match r.nicknames with
  | some ns => !(ns.contains user)
  | none => false

/-- `user in rule.get("ignore_nicknames", [])`. -/
def ignoreReject (r : Rule) (user : String) : Bool :=
  match r.ignore_nicknames with
  | some ns => ns.contains user
  | none => false

/-- The regexp filter as written in the source:
`"regexp" in rule and not re.match(text, rule["regexp"])` — note the
message text is passed as the PATTERN and the rule's regexp as the
subject.  `.error .reError` models the `re.error` raised when compiling
`text` fails. -/
def regexpCheck (r : Rule) (text : String) : Except PyErr Bool :=
  match r.regexp with
  | none => .ok true
  | some rx =>
      match re_match text rx with
      | none => .error .reError
      | some b => .ok b

/-- One iteration of the rule loop of `Forwarder.on_message`, for one
rule: `.ok none` models `continue`, `.ok (some s)` the issued `say`
call, `.error e` an exception escaping the loop.  `clients` is the key
set of `self._clients`; the final lookup `self._clients[to_client_id]`
raises `KeyError` when the id is absent. -/
def ruleSend? (clients : List String) (r : Rule)
    (sender user target text : String) : Except PyErr (Option Send) :=
  match split1 r.from_ with
  | none => .error .valueError
  | some (from_channel, from_client_id) =>
      if from_client_id != sender || from_channel != target then .ok none
      else if nicknamesReject r user then .ok none
      else if ignoreReject r user then .ok none
      else
        match regexpCheck r text with
        | .error e => .error e
        | .ok false => .ok none
        | .ok true =>
            match split1 r.send_to with
            | none => .error .valueError
            | some (to_channel, to_client_id) =>
                if clients.contains to_client_id then
                  .ok (some { dst := to_client_id, author := user,
                              from_client := from_client_id,
                              from_target := target, target := to_channel,
                              msg := text })
                else .error (.keyError to_client_id)

/-- `Forwarder.on_message(sender, user, target, text)`: iterate the rule
loop in order, collecting the issued sends; the second component records
an exception that escaped the loop (sends issued before it are kept,
as they were already dispatched). -/
def Forwarder.on_message (clients : List String) :
    List Rule → String → String → String → String → List Send × Option PyErr
  | [], _, _, _, _ => ([], none)
  | r :: rs, sender, user, target, text =>
      match ruleSend? clients r sender user target text with
      | .error e => ([], some e)
      | .ok none => Forwarder.on_message clients rs sender user target text
      | .ok (some s) =>
          let p := Forwarder.on_message clients rs sender user target text
          (s :: p.1, p.2)

/-! ### Client registry, `Forwarder.validate`, `Forwarder.__init__`, `run` -/

/-- A value stored in a client's configuration dict: either parsed
configuration data, or (after `Forwarder.__init__`) the instantiated
transport object stored under the key `"client"`.  The transport object
`t(client, clients[client])` is recorded by its kind name and client id. -/
inductive CfgVal where
  | js (j : JVal)
  | tobj (kind : String) (client_id : String)

/-- A client configuration dict. -/
abbrev Cfg := List (String × CfgVal)

/-- Python dict lookup `d[k]` on a client configuration. -/
def dictLookup : Cfg → String → Option CfgVal
  | [], _ => none
  | (k2, v) :: rest, k => if k2 = k then some v else dictLookup rest k

/-- Python dict assignment `d[k] = v`: replace the binding if the key is
present, append it otherwise. -/
def dictSet : Cfg → String → CfgVal → Cfg
  | [], k, v => [(k, v)]
  | (k2, v2) :: rest, k, v =>
      if k2 = k then (k, v) :: rest else (k2, v2) :: dictSet rest k v

/-- The transport registry `_transports` after `load_plugins()`: the
`NAME` constants of the three `BaseTransport` subclasses
(`gitter.py`, `irc.py`, `telegram.py`). -/
def _transports : List String := ["Gitter", "irc", "telegram"]

/-- Crude rendering of a JSON value by `"%s"` (only the string case is
ever reached by the claims). -/
def jdisplay : JVal → String
  | .str s => s
  | .num n => toString n
  | .bool b => if b then "True" else "False"
  | .null => "None"
  | .arr _ => "[...]"
  | .obj _ => "\x7b...\x7d"

/-- `cfg["transport"] not in _transports` is false exactly when the value
is a string equal to a registered kind name (dict keys are strings). -/
def valInRegistry : CfgVal → Bool
  | .js (.str s) => _transports.contains s
  | _ => false

/-- Rendering of a config value by `"%s"` for the error message. -/
def displayVal : CfgVal → String
  | .js j => jdisplay j
  | .tobj k _ => "<transport " ++ k ++ ">"

/-- The clients loop of `Forwarder.validate`: `some msg` is the
`logger.error(msg)` followed by `return` (so `validate` yields `None`),
`none` means every client passed.  After the registry check the code
runs `t.validate(cfg)`, i.e. `jsonschema.validate(cfg,
BaseTransport.CONFIG_SCHEMA)`; `CONFIG_SCHEMA` is the empty schema
`\x7b\x7d` (the subclasses override `CLIENT_SCHEMA`, not
`CONFIG_SCHEMA`), so that call never raises and needs no model. -/
def checkClients : List (String × Cfg) → Option String
  | [] => none
  | (client_id, cfg) :: rest =>
      match dictLookup cfg "transport" with
      | none =>
          some ("The \x27transport\x27 section is missed in "
                ++ client_id ++ " client.")
      | some v =>
          if valInRegistry v then checkClients rest
          else some ("The \x27" ++ displayVal v ++ "\x27 transport is unknown.")

/-- The rules loop of `Forwarder.validate`: schema-check each rule
(re-raising `jsonschema.ValidationError` after printing), split both
endpoint strings on the first `@` (a string without `@` raises
`ValueError` from the unpacking), then evaluate `if missed_user:` —
Python truthiness, falsy both for `None` and for the empty string.  A
rule whose first unconfigured client-id component is a NON-empty string
is dropped with a warning; a rule whose offending component is the
empty string (an endpoint such as `"#x@"`) slips past the truthiness
test and is kept.  Kept rules are appended in order. -/
def validateRules (clientIds : List String) : List JVal → Except PyErr (List Rule)
  | [] => .ok []
  | j :: rest =>
      if ruleSchemaOk j then
        let r := decodeRule j
        match split1 r.from_ with
        | none => .error .valueError
        | some (_, from_client_id) =>
            match split1 r.send_to with
            | none => .error .valueError
            | some (_, to_client_id) =>
                let missed_user : Option String :=
                  if clientIds.contains from_client_id = false then
                    some from_client_id
                  else if clientIds.contains to_client_id = false then
                    some to_client_id
                  else none
                match missed_user with
                | some m =>
                    if m = "" then
                      (validateRules clientIds rest).map (fun rs => r :: rs)
                    else validateRules clientIds rest
                | none => (validateRules clientIds rest).map (fun rs => r :: rs)
      else .error (.validationError j)

/-- Outcome of `Forwarder.validate(clients, rules)`: `fatal msg` models
`logger.error(msg)` + `return None`, `exc e` an exception propagating
out of the rules loop, `ok` the returned `(clients, validated_rules)`
(the clients object is returned unchanged). -/
inductive VResult where
  | fatal (msg : String)
  | exc (e : PyErr)
  | ok (rules : List Rule)

/-- `Forwarder.validate(clients, rules)`. -/
def Forwarder.validate (clients : List (String × Cfg)) (rules : List JVal) :
    VResult :=
  match checkClients clients with
  | some m => .fatal m
  | none =>
      match validateRules (clients.map Prod.fst) rules with
      | .error e => .exc e
      | .ok rs => .ok rs

/-- `Forwarder.__init__(clients, rules)`: for each configured client id,
look up its transport kind (`clients[client]["transport"]`, a `KeyError`
when absent), resolve the constructor (`_transports[...]`, a `KeyError`
when unknown), instantiate it and store it into that client's dict under
the new key `"client"`.  A non-string transport value cannot index the
registry and is modelled as the same lookup failure. -/
def Forwarder.init : List (String × Cfg) → Except PyErr (List (String × Cfg))
  | [] => .ok []
  | (client_id, cfg) :: rest =>
      match dictLookup cfg "transport" with
      | none => .error (.keyError "transport")
      | some v =>
          match v with
          | .js (.str k) =>
              if _transports.contains k then
                (Forwarder.init rest).map
                  (fun r => (client_id, dictSet cfg "client" (.tobj k client_id)) :: r)
              else .error (.keyError k)
          | _ => .error (.keyError "transport")

/-- Outcome of the startup path of `run()` after the configuration file
is loaded: `exit1 msg` is `sys.exit(1)` after `validate` reported `msg`,
`raised e` an exception propagating out of `run`, `running` reaching
`Forwarder(clients, rules).start()` and its `run_forever()`. -/
inductive RunOutcome where
  | exit1 (msg : String)
  | raised (e : PyErr)
  | running

/-- The startup sequence of `run()` from validation onwards; the second
component lists the client ids on which `connect()` was invoked
(`start()` connects every registered client, in order). -/
def runStartup (clients : List (String × Cfg)) (rules : List JVal) :
    RunOutcome × List String :=
  match Forwarder.validate clients rules with
  | .fatal m => (.exit1 m, [])
  | .exc e => (.raised e, [])
  | .ok _ =>
      match Forwarder.init clients with
      | .error e => (.raised e, [])
      | .ok cl2 => (.running, cl2.map Prod.fst)

/-! ### Template rendering (`BaseTransport.say`) -/

/-- `BaseTransport.MSG_TEMPLATE`, the default outbound template. -/
def BaseTransport.MSG_TEMPLATE : String :=
  "[From %(from_client)s] %(author)s : %(msg)s"

/-- Scanner state for Python `%`-style mapping substitution. -/
inductive RState where
  | plain
  | sawPercent
  | inKey (acc : List Char)
  | sawKey (name : String)

/-- Lookup in the substitution mapping. -/
def mlookup : List (String × String) → String → Option String
  | [], _ => none
  | (k2, v) :: rest, k => if k2 = k then some v else mlookup rest k

/-- `template % mapping` for the directives the templates of this code
base use: `%(name)s` and `%%`.  An unknown `name` raises
`KeyError(name)`; an incomplete directive or a conversion other than
`s` (unused by the code's templates) is modelled as `ValueError`. -/
def renderLoop (m : List (String × String)) :
    RState → List Char → Except PyErr (List Char)
  | .plain, [] => .ok []
  | .plain, c :: cs =>
      if c = '%' then renderLoop m .sawPercent cs
      else (renderLoop m .plain cs).map (fun out => c :: out)
  | .sawPercent, [] => .error .valueError
  | .sawPercent, c :: cs =>
      if c = '%' then (renderLoop m .plain cs).map (fun out => '%' :: out)
      else if c = '(' then renderLoop m (.inKey []) cs
      else .error .valueError
  | .inKey _, [] => .error .valueError
  | .inKey acc, c :: cs =>
      if c = ')' then renderLoop m (.sawKey (String.mk acc.reverse)) cs
      else renderLoop m (.inKey (c :: acc)) cs
  | .sawKey _, [] => .error .valueError
  | .sawKey name, c :: cs =>
      if c = 's' then
        match mlookup m name with
        | none => .error (.keyError name)
        | some v => (renderLoop m .plain cs).map (fun out => v.data ++ out)
      else .error .valueError

/-- The rendering step of `BaseTransport.say(author, from_client,
from_target, target, msg)`: `msg_template % \x7b"author": author,
"from_client": from_client, "from_target": from_target, "target":
target, "msg": msg\x7d`. -/
def BaseTransport.say_render (tmpl author from_client from_target target msg :
    String) : Except PyErr String :=
  (renderLoop [("author", author), ("from_client", from_client),
               ("from_target", from_target), ("target", target),
               ("msg", msg)] .plain tmpl.data).map String.mk

/-! ### Transport inbound decoding (self-forward suppression) -/

/-- A `_forward_message(user=..., target=..., text=...)` call, i.e. a
publication on the `blinker` "messages" signal.  Gitter passes
`message.get("text")`, which may be `None`, hence the `Option`. -/
structure Publish where
  user : String
  target : String
  text : Option String

/-- `IRCClient.on_message`: drop the event when the author's nick equals
the connected client's own nick, otherwise publish. -/
def IRCClient.on_message (clientNick userNick target text : String) :
    Option Publish :=
  if userNick = clientNick then none
  else some { user := userNick, target := target, text := some text }

/-- One decoded Gitter stream message: `message.get("fromUser",
\x7b\x7d).get("username", "")` collapses an absent `fromUser` and an
absent `username` to the same `none`, and `message.get("text")`. -/
structure GitterMsg where
  fromUser_username : Option String
  text : Option String

/-- The per-message body of `GitterClient._listen_messages`: drop the
message when its author's username equals the connected user's username
(`self._user["username"]`), otherwise publish it for the room. -/
def GitterClient.handleMessage (selfUsername roomName : String)
    (m : GitterMsg) : Option Publish :=
  let author := m.fromUser_username.getD ""
  if author = selfUsername then none
  else some { user := author, target := roomName, text := m.text }

/-- The `chat` object of a Telegram message (`message["chat"]` with its
`title` and `id`, both read unconditionally by the code). -/
structure TgChat where
  title : String
  id : Int

/-- A decoded Telegram message: `message.get("text")` (absent for e.g.
photos), the chat, and `message.get("from", \x7b\x7d)` collapsed to its
optional `username` and `first_name`. -/
structure TgMessage where
  text : Option String
  chat : TgChat
  from_username : Option String
  from_first_name : Option String

/-- A Telegram update, holding at most one of the four message keys the
code looks for. -/
structure TgUpdate where
  message : Option TgMessage
  channel_post : Option TgMessage
  edited_message : Option TgMessage
  edited_channel_post : Option TgMessage
  update_id : Int

/-- The key-set intersection and `key.pop()` of `_listen_for_update`;
Python pops an arbitrary member of the set, so this fixed order models
the behaviour for updates carrying at most one of the four keys (the
only shape the claims use). -/
def TgUpdate.selectMessage (u : TgUpdate) : Option TgMessage :=
  u.message <|> u.channel_post <|> u.edited_message <|> u.edited_channel_post

/-- The per-update body of `TelegramClient._listen_for_update`: skip
updates without a message key or without `"text"`, derive the author
from `username` / `first_name` (skip when both absent), and publish for
the chat's title.  The connected identity `self._user` (from `getMe`) is
a parameter here because the listener holds it, but — unlike the IRC and
Gitter listeners — the code never compares the author against it; the
channel-map insertion and offset bookkeeping touch no published data and
are omitted. -/
def TelegramClient.handleUpdate (selfUser : Option String)
    (channels : List (String × Int)) (u : TgUpdate) : Option Publish :=
  match u.selectMessage with
  | none => none
  | some m =>
      match m.text with
      | none => none
      | some text =>
          let author? : Option String :=
            match m.from_username with
            | some un => some un
            | none => m.from_first_name
          match author? with
          | none => none
          | some author =>
              some { user := author, target := m.chat.title, text := some text }

/-! ### Spec-side predicates

These definitions follow the specification's words (not the source) and
exist to be compared against the embedded code. -/

/-- Spec-side matching predicate, from the claim's words: the rule fires
for a message iff the rule's from-endpoint client id equals the
message's origin client id and its channel equals the origin channel
(exact string equality), the author is a member of the allow list when
one is present, and is not a member of the deny list when one is
present. -/
def specMatches (fromChannel fromClientId : String)
    (allow deny : Option (List String)) (sender user target : String) : Bool :=
  fromClientId == sender && fromChannel == target
  && (match allow with | some ns => ns.contains user | none => true)
  && (match deny with | some ns => !(ns.contains user) | none => true)

/-- Spec-side expected send for one rule (endpoints read with the code's
parse `split1`; which split is used is settled separately by C3). -/
def specSend (r : Rule) (sender user target text : String) : Option Send :=
  match split1 r.from_, split1 r.send_to with
  | some (fc, fcid), some (tc, tcid) =>
      if specMatches fc fcid r.nicknames r.ignore_nicknames sender user target
      then some { dst := tcid, author := user, from_client := fcid,
                  from_target := target, target := tc, msg := text }
      else none
  | _, _ => none

/-- Well-formedness of a compiled rule relative to a client set: both
endpoint strings contain an `@` and the destination client id is
registered (so the dispatch loop has no exception path for it). -/
def ruleWFb (clients : List String) (r : Rule) : Bool :=
  (split1 r.from_).isSome
  && (match split1 r.send_to with
      | some p => clients.contains p.2
      | none => false)

/-- Spec-side keep condition of rule compilation: both endpoints' client
ids appear in the clients mapping. -/
def ruleKept (clientIds : List String) (r : Rule) : Bool :=
  match split1 r.from_, split1 r.send_to with
  | some (_, fcid), some (_, tcid) =>
      clientIds.contains fcid && clientIds.contains tcid
  | _, _ => false

/-- The keep condition the code's `if missed_user:` truthiness test
actually implements: when the `from` client id is configured, keep iff
the `send_to` client id is configured or empty; when the `from` client
id is unconfigured, keep iff it is the empty string (the `send_to` id
is then never examined). -/
def ruleKeptCode (clientIds : List String) (r : Rule) : Bool :=
  match split1 r.from_, split1 r.send_to with
  | some (_, fcid), some (_, tcid) =>
      if clientIds.contains fcid then clientIds.contains tcid || tcid == ""
      else fcid == ""
  | _, _ => false

/-- A structurally well-formed rule object: schema-valid and with both
endpoint strings parseable (containing an `@`). -/
def ruleWellFormed (j : JVal) : Bool :=
  ruleSchemaOk j && (split1 (decodeRule j).from_).isSome
    && (split1 (decodeRule j).send_to).isSome

/-- Spec-side reading of "a diagnostic naming the offending rule": the
raised error is a schema error carrying that rule object. -/
def errNamesRule (e : PyErr) (j : JVal) : Prop :=
  e = PyErr.validationError j

/-- Does the first list start with the second? -/
def listStartsWith : List Char → List Char → Bool
  | _, [] => true
  | [], _ :: _ => false
  | a :: as, b :: bs => a == b && listStartsWith as bs

/-- Substring occurrence on character lists. -/
def listContainsSub : List Char → List Char → Bool
  | s, sub =>
      listStartsWith s sub
      || (match s with
          | [] => false
          | _ :: tl => listContainsSub tl sub)

/-- Does the string `s` contain `sub` as a substring (used to ask
whether a diagnostic message mentions a client id)? -/
def containsSubstr (s sub : String) : Bool :=
  listContainsSub s.data sub.data

/-- The condition under which the clients loop of `Forwarder.validate`
accepts a client's configuration: a `transport` key whose value is a
registered kind name. -/
def cfgTransportOk (cfg : Cfg) : Bool :=
  match dictLookup cfg "transport" with
  | some v => valInRegistry v
  | none => false

/-- The declared transport kind of a configuration, when it is a string. -/
def cfgTransportKind (cfg : Cfg) : Option String :=
  match dictLookup cfg "transport" with
  | some (.js (.str k)) => some k
  | _ => none

/-- The condition under which `Forwarder.__init__` can instantiate a
client's transport: a string `transport` value naming a registered kind. -/
def cfgInitOk (cfg : Cfg) : Bool :=
  match cfgTransportKind cfg with
  | some k => _transports.contains k
  | none => false

/-! ### Concrete fixtures used by counterexamples and witnesses -/

/-- A compiled rule with a regexp filter `"abc"`. -/
def ruleRx : Rule := ⟨"#a@A", "#b@A", none, none, some "abc"⟩

/-- A compiled rule with a regexp filter `"x"`. -/
def ruleRx2 : Rule := ⟨"#a@A", "#b@A", none, none, some "x"⟩

/-- A compiled rule whose `from` channel name itself contains an `@`
(under last-`@` parsing it reads channel `#a@b` on client `IRC`). -/
def ruleAtAt : Rule := ⟨"#a@b@IRC", "#c@G", none, none, none⟩

/-- A schema-valid rule object whose `from` string `"x"` holds no `@`. -/
def jx : JVal := .obj [("from", .str "x"), ("send_to", .str "#c@A")]

/-- A client configuration declaring the registered `irc` transport. -/
def cfgIrcA : Cfg := [("transport", .js (.str "irc"))]

/-- A client configuration declaring an unregistered transport kind. -/
def cfgUnknown : Cfg := [("transport", .js (.str "xmpp"))]

/-- A Telegram update whose message was authored by username `bot`. -/
def tgSelfUpdate : TgUpdate :=
  ⟨some ⟨some "hi", ⟨"room", 1⟩, some "bot", none⟩, none, none, none, 7⟩

/-! ### Claims -/

/-- C2 (code bug): the claim states that a rule with a `filter_pattern`
forwards a message (that passes the other filters) iff the rule's
regexp, used as the pattern, matches the message text, used as the
subject.  The code calls `re.match(text, rule["regexp"])` with the
arguments swapped.  At the failing input — rule regexp `"abc"`, message
text `"a.*"` — the rule's pattern `"abc"` does not match the text
`"a.*"` (second conjunct), so per the claim no send may be issued, yet
the dispatch loop issues the send (first conjunct), because it matches
the text as a pattern against the regexp string instead. -/
theorem c2_regexp_swapped :
    Forwarder.on_message ["A"] [ruleRx] "A" "u" "#a" "a.*"
      = ([⟨"A", "u", "A", "#a", "#b", "a.*"⟩], none)
    ∧ re_match "abc" "a.*" = some false :=
  ⟨rfl, rfl⟩

/-- C3 (counterexample): the claim states endpoints are parsed by
splitting on the LAST `@`.  For the rule `\x7bfrom: "#a@b@IRC", send_to:
"#c@G"\x7d` and the message on channel `#a@b` of client `IRC`, last-`@`
parsing satisfies every filter of the claim (second conjunct:
channel `#a@b`, client id `IRC`), so the claim requires a send to
`#c@G`; the code issues no send (first conjunct), because
`"#a@b@IRC".split("@", 1)` yields channel `#a` and client id `b@IRC`. -/
theorem c3_last_at_counterexample :
    Forwarder.on_message ["IRC", "G"] [ruleAtAt] "IRC" "u" "#a@b" "t" = ([], none)
    ∧ specMatches "#a@b" "IRC" none none "IRC" "u" "#a@b" = true :=
  ⟨rfl, rfl⟩

/-- C5 (counterexample): the claim states that no transport publishes a
message whose author equals the transport's own connected identity.  The
Telegram listener holds its connected identity (`getMe` result, username
`bot`) but never consults it: an update authored by `bot` is published
to the bus anyway. -/
theorem c5_telegram_counterexample :
    TelegramClient.handleUpdate (some "bot") [] tgSelfUpdate
      = some ⟨"bot", "room", some "hi"⟩ :=
  rfl

/-- C5 (amended): the IRC and Gitter transports never publish a message
whose author equals their own connected identity (the Telegram transport
applies no such check, per the counterexample). -/
theorem c5_self_suppression_amended (clientNick target text selfUsername
    roomName : String) (m : GitterMsg)
    (h : m.fromUser_username.getD "" = selfUsername) :
    IRCClient.on_message clientNick clientNick target text = none
    ∧ GitterClient.handleMessage selfUsername roomName m = none := by
  constructor
  · simp [IRCClient.on_message]
  · simp [GitterClient.handleMessage, h]

/-- C5 witness: the amended theorem applied at a concrete input. -/
theorem c5_self_suppression_amended_witness :
    (Option.getD (some "sam") "" = "sam")
    ∧ IRCClient.on_message "nick" "nick" "#c" "hello" = none
    ∧ GitterClient.handleMessage "sam" "Lobby" ⟨some "sam", some "hi"⟩ = none :=
  ⟨rfl,
   (c5_self_suppression_amended "nick" "#c" "hello" "sam" "Lobby"
     ⟨some "sam", some "hi"⟩ rfl).1,
   (c5_self_suppression_amended "nick" "#c" "hello" "sam" "Lobby"
     ⟨some "sam", some "hi"⟩ rfl).2⟩

/-- C7 (code bug): the claim (and the code's own module docstring and
the Gitter schema description) states that template rendering
substitutes the placeholders `client_id` (the origin client id),
`author` and `msg`.  The rendering in `BaseTransport.say` supplies only
the keys `author`, `from_client`, `from_target`, `target` and `msg`, so
a template using the documented `%(client_id)s` placeholder — as in the
docstring's own example configuration — raises `KeyError` instead of
substituting the origin client id `X` (first conjunct).  The default
template does render to the byte-exact literal substitution (second
conjunct). -/
theorem c7_template_keys :
    BaseTransport.say_render "%(client_id)s" "alice" "X" "#a" "#b" "hi"
      = .error (.keyError "client_id")
    ∧ BaseTransport.say_render BaseTransport.MSG_TEMPLATE "alice" "X" "#a" "#b" "hi"
      = .ok "[From X] alice : hi" :=
  ⟨rfl, rfl⟩

/-- C8 (code bug): the claim states `Forwarder.on_message` never raises
and a malformed message is treated as non-matching.  For the compiled
rule set `[\x7bfrom: "#a@A", send_to: "#b@A", regexp: "x"\x7d]` and the
message with text `"("` on `#a@A`, the dispatch loop raises `re.error`,
because `re.match(text, rule["regexp"])` compiles the message text as a
regular expression. -/
theorem c8_router_raises :
    Forwarder.on_message ["A"] [ruleRx2] "A" "u" "#a" "("
      = ([], some PyErr.reError) :=
  rfl

/-- For a well-formed rule without a regexp filter, one iteration of the
dispatch loop agrees with the spec-side matching predicate. -/
theorem ruleSend_eq_specSend (clients : List String) (r : Rule)
    (sender user target text : String)
    (hwf : ruleWFb clients r = true) (hnp : r.regexp = none) :
    ruleSend? clients r sender user target text
      = Except.ok (specSend r sender user target text) := by
  rcases h1 : split1 r.from_ with _ | ⟨fc, fcid⟩
  · rw [ruleWFb, h1] at hwf
    simp at hwf
  rcases h2 : split1 r.send_to with _ | ⟨tc, tcid⟩
  · rw [ruleWFb, h1, h2] at hwf
    simp at hwf
  have h3 : clients.contains tcid = true := by
    rw [ruleWFb, h1, h2] at hwf
    simpa using hwf
  have hrx : regexpCheck r text = .ok true := by
    rw [regexpCheck, hnp]
  simp only [ruleSend?, specSend, specMatches, h1, h2, h3, hrx]
  rcases hn : r.nicknames with _ | ns <;>
    rcases hi : r.ignore_nicknames with _ | igs <;>
      simp only [nicknamesReject, ignoreReject, hn, hi, bne] <;>
        split_ifs <;> simp_all

/-- C1 (confirmed): for a compiled rule set of well-formed rules without
filter patterns, `Forwarder.on_message` issues, for every inbound
message, exactly the sends of the rules satisfying the spec-side
predicate — endpoint equality under exact string comparison, allow-list
membership when the list is present, deny-list non-membership when that
list is present — one send per matching rule, each rule evaluated
independently in order (the result is the `filterMap` of the rule list),
and the dispatch loop raises nothing. -/
theorem c1_dispatch_iff (clients : List String) (rules : List Rule)
    (sender user target text : String)
    (hwf : ∀ r ∈ rules, ruleWFb clients r = true)
    (hnp : ∀ r ∈ rules, r.regexp = none) :
    Forwarder.on_message clients rules sender user target text
      = (rules.filterMap (fun r => specSend r sender user target text), none) := by
  induction rules with
  | nil => rfl
  | cons r rs ih =>
      have hr : ruleWFb clients r = true := hwf r (List.mem_cons_self r rs)
      have hn : r.regexp = none := hnp r (List.mem_cons_self r rs)
      have ihr := ih (fun x hx => hwf x (List.mem_cons_of_mem r hx))
        (fun x hx => hnp x (List.mem_cons_of_mem r hx))
      rw [Forwarder.on_message,
        ruleSend_eq_specSend clients r sender user target text hr hn]
      cases hs : specSend r sender user target text with
      | none => simp [hs, ihr]
      | some s => simp [hs, ihr]

/-- C1 witness: the spec's own scenario — rule
`\x7bfrom: "#a@IRC", send_to: "#b@Gitter", ignore_nicknames:
["bot2"]\x7d`, inbound message from `alice` on `#a@IRC` — issues exactly
one send, to `Gitter`/`#b`. -/
theorem c1_dispatch_iff_witness :
    (∀ r ∈ [(⟨"#a@IRC", "#b@Gitter", none, some ["bot2"], none⟩ : Rule)],
        ruleWFb ["IRC", "Gitter"] r = true)
    ∧ (∀ r ∈ [(⟨"#a@IRC", "#b@Gitter", none, some ["bot2"], none⟩ : Rule)],
        r.regexp = none)
    ∧ Forwarder.on_message ["IRC", "Gitter"]
        [⟨"#a@IRC", "#b@Gitter", none, some ["bot2"], none⟩] "IRC" "alice" "#a" "hi"
      = ([⟨"Gitter", "alice", "IRC", "#a", "#b", "hi"⟩], none) :=
  ⟨by decide, by decide,
   (c1_dispatch_iff ["IRC", "Gitter"]
     [⟨"#a@IRC", "#b@Gitter", none, some ["bot2"], none⟩] "IRC" "alice" "#a" "hi"
     (by decide) (by decide)).trans rfl⟩

/-- `splitOnceAux` cuts at the first `'@'`. -/
theorem splitOnceAux_append (l1 l2 : List Char) (h : '@' ∉ l1) :
    splitOnceAux (l1 ++ '@' :: l2) = some (l1, l2) := by
  induction l1 with
  | nil => simp [splitOnceAux]
  | cons c cs ih =>
      have hc : ¬ c = '@' := fun e => h (by simp [e])
      have ih2 := ih (fun hm => h (List.mem_cons_of_mem c hm))
      simp [splitOnceAux, hc, ih2]

/-- `split1` cuts a `channel@rest` string at the first `'@'`. -/
theorem split1_first_at (ch rest : String) (h : '@' ∉ ch.data) :
    split1 (ch ++ "@" ++ rest) = some (ch, rest) := by
  have hd : (ch ++ "@" ++ rest).data = ch.data ++ '@' :: rest.data := by
    simp [String.data_append]
  rw [split1, hd, splitOnceAux_append ch.data rest.data h]
  rfl

/-- C3 (amended): both during rule compilation (`Forwarder.validate`)
and during matching (`Forwarder.on_message`) the endpoint strings are
split on the FIRST `@` — the channel is everything before the first `@`
and the client id everything after it, even when that remainder itself
contains `@`.  First conjunct: the shared parse `split1`.  Second
conjunct: compilation keys its client-registry cross-check on the
after-first-`@` parts (stated for non-empty client-id components, where
the `if missed_user:` truthiness test coincides with a membership
test).  Third conjunct: matching compares the message's origin against
the before/after-first-`@` parts. -/
theorem c3_split_first_amended (ch rest tch trest sender user target text :
    String) (clientIds : List String)
    (h1 : '@' ∉ ch.data) (h2 : '@' ∉ tch.data)
    (h3 : rest ≠ "") (h4 : trest ≠ "") :
    split1 (ch ++ "@" ++ rest) = some (ch, rest)
    ∧ validateRules clientIds
        [JVal.obj [("from", .str (ch ++ "@" ++ rest)),
                   ("send_to", .str (tch ++ "@" ++ trest))]]
      = .ok (if clientIds.contains rest && clientIds.contains trest then
               [⟨ch ++ "@" ++ rest, tch ++ "@" ++ trest, none, none, none⟩]
             else [])
    ∧ (ruleSend? clientIds ⟨ch ++ "@" ++ rest, tch ++ "@" ++ trest,
          none, none, none⟩ sender user target text = Except.ok none
        ↔ ¬ (rest = sender ∧ ch = target)) := by
  refine ⟨split1_first_at ch rest h1, ?_, ?_⟩
  · have hs : ruleSchemaOk (JVal.obj [("from", .str (ch ++ "@" ++ rest)),
        ("send_to", .str (tch ++ "@" ++ trest))]) = true := by
      simp [ruleSchemaOk, jlookup, jIsStr, RULE_SCHEMA_keys]
    by_cases hf : rest ∈ clientIds <;> by_cases ht : trest ∈ clientIds <;>
      simp [hf, ht, h3, h4, validateRules, hs, decodeRule, jlookup, jStrD,
        jStrListD, Except.map, split1_first_at ch rest h1,
        split1_first_at tch trest h2]
  · simp only [ruleSend?, split1_first_at ch rest h1, split1_first_at tch trest h2,
      nicknamesReject, ignoreReject, regexpCheck, bne]
    by_cases hms : rest = sender <;> by_cases hmt : ch = target <;>
      rcases hc : clientIds.contains trest with _ | _ <;>
        simp_all

/-- C3 witness: the amended theorem applied at a concrete input —
`"#a@b@IRC"` parses to channel `#a` and client id `b@IRC`. -/
theorem c3_split_first_amended_witness :
    '@' ∉ "#a".data ∧ '@' ∉ "#c".data ∧ "b@IRC" ≠ "" ∧ "G" ≠ ""
    ∧ split1 ("#a" ++ "@" ++ "b@IRC") = some ("#a", "b@IRC") :=
  ⟨by decide, by decide, by decide, by decide,
   (c3_split_first_amended "#a" "b@IRC" "#c" "G" "s" "u" "t" "x" ["IRC", "G"]
     (by decide) (by decide) (by decide) (by decide)).1⟩

/-- A schema-valid rule object from `#x@A` to `#y@A` (both ids
configured in the witness's client mapping). -/
def jGood : JVal := .obj [("from", .str "#x@A"), ("send_to", .str "#y@A")]

/-- A schema-valid rule object whose `from` client id `B` is not
configured in the witness's client mapping. -/
def jDrop : JVal := .obj [("from", .str "#x@B"), ("send_to", .str "#y@A")]

/-- C4 (counterexample): the claim states that for every list of
schema-valid rules, `Forwarder.validate` returns the subsequence of
rules whose client ids are configured and never causes startup to
abort.  The rule `\x7bfrom: "x", send_to: "#c@A"\x7d` is schema-valid
(first conjunct), yet `validate` raises `ValueError` out of
`"x".split("@", 1)` unpacking (second conjunct), which aborts startup. -/
theorem c4_unparseable_rule_counterexample :
    ruleSchemaOk jx = true
    ∧ Forwarder.validate [("A", cfgIrcA)] [jx] = .exc PyErr.valueError :=
  ⟨rfl, rfl⟩

/-- The rules loop of `Forwarder.validate` on structurally well-formed
rules keeps, in order, exactly those satisfying the truthiness keep
condition `ruleKeptCode`. -/
theorem validateRules_keeps (ids : List String) (js : List JVal)
    (h : ∀ j ∈ js, ruleWellFormed j = true) :
    validateRules ids js = .ok (js.filterMap (fun j =>
      if ruleKeptCode ids (decodeRule j) then some (decodeRule j) else none)) := by
  induction js with
  | nil => rfl
  | cons j rest ih =>
      have hj := h j (List.mem_cons_self j rest)
      have ihr := ih (fun x hx => h x (List.mem_cons_of_mem j hx))
      simp only [ruleWellFormed, Bool.and_eq_true] at hj
      obtain ⟨⟨hsch, hf'⟩, hts'⟩ := hj
      rcases hf : split1 (decodeRule j).from_ with _ | ⟨fc, fcid⟩
      · rw [hf] at hf'
        simp at hf'
      rcases hts : split1 (decodeRule j).send_to with _ | ⟨tc, tcid⟩
      · rw [hts] at hts'
        simp at hts'
      simp only [validateRules, hsch, if_true, hf, hts]
      have hkc : ruleKeptCode ids (decodeRule j)
          = (if ids.contains fcid then ids.contains tcid || tcid == ""
             else fcid == "") := by
        simp only [ruleKeptCode, hf, hts]
      rw [List.filterMap_cons, hkc]
      by_cases h1 : fcid ∈ ids
      · by_cases h2 : tcid ∈ ids
        · simp [h1, h2, ihr, Except.map]
        · by_cases h4 : tcid = ""
          · subst h4
            simp [h1, h2, ihr, Except.map]
          · simp [h1, h2, h4, ihr, Except.map]
      · by_cases h3 : fcid = ""
        · subst h3
          simp [h1, ihr, Except.map]
        · simp [h1, h3, ihr, Except.map]

/-- C4 (amended): for every clients mapping that passes the clients
check and every ordered list of schema-valid rules whose `from` and
`send_to` strings each contain an `@`, `Forwarder.validate` aborts
nothing and returns, in the original order, exactly the subsequence of
(decoded) rules kept by the code's `if missed_user:` truthiness test
(`ruleKeptCode`): a rule is kept iff its `from` client id is configured
and its `send_to` client id is configured or empty, or its `from`
client id is the empty string.  Second conjunct: for rules whose parsed
client-id components are non-empty — every id the spec's canonical
`channel@client_id` form produces — this keep condition is exactly
"both endpoint client ids appear in the clients mapping" (`ruleKept`). -/
theorem c4_validate_subsequence (clients : List (String × Cfg))
    (rulesJ : List JVal)
    (hc : checkClients clients = none)
    (hr : ∀ j ∈ rulesJ, ruleWellFormed j = true) :
    (Forwarder.validate clients rulesJ
      = .ok (rulesJ.filterMap (fun j =>
          if ruleKeptCode (clients.map Prod.fst) (decodeRule j)
          then some (decodeRule j) else none)))
    ∧ ∀ (ids : List String) (r : Rule) (fc fcid tc tcid : String),
        split1 r.from_ = some (fc, fcid) → split1 r.send_to = some (tc, tcid) →
        fcid ≠ "" → tcid ≠ "" →
        ruleKeptCode ids r = ruleKept ids r := by
  constructor
  · rw [Forwarder.validate, hc,
      validateRules_keeps (clients.map Prod.fst) rulesJ hr]
  · intro ids r fc fcid tc tcid hf hts h3 h4
    by_cases h1 : fcid ∈ ids <;> by_cases h2 : tcid ∈ ids <;>
      simp [ruleKeptCode, ruleKept, hf, hts, h1, h2, h3, h4]

/-- A schema-valid rule whose `from` client-id component is the empty
string (endpoint `"#x@"`); `if missed_user:` is falsy for it, so the
code keeps the rule even though neither `""` nor `B` is configured. -/
def jEmptyId : JVal := .obj [("from", .str "#x@"), ("send_to", .str "#y@B")]

/-- C4 witness: with client `A` configured, a rule `#x@A → #y@A` is
kept, a rule `#x@B → #y@A` (unknown non-empty client id `B`) is
dropped, and a rule `#x@ → #y@B` (empty `from` id) slips past the
truthiness test and is kept, with no abort. -/
theorem c4_validate_subsequence_witness :
    checkClients [("A", cfgIrcA)] = none
    ∧ (∀ j ∈ [jGood, jDrop, jEmptyId], ruleWellFormed j = true)
    ∧ Forwarder.validate [("A", cfgIrcA)] [jGood, jDrop, jEmptyId]
      = .ok [⟨"#x@A", "#y@A", none, none, none⟩,
             ⟨"#x@", "#y@B", none, none, none⟩] :=
  ⟨rfl, by decide,
   ((c4_validate_subsequence [("A", cfgIrcA)] [jGood, jDrop, jEmptyId] rfl
     (by decide)).1).trans rfl⟩

/-- If some client fails the transport check, the clients loop of
`Forwarder.validate` reports an error message. -/
theorem checkClients_fatal (clients : List (String × Cfg))
    (h : ∃ p ∈ clients, cfgTransportOk p.2 = false) :
    ∃ m, checkClients clients = some m := by
  induction clients with
  | nil => simp at h
  | cons p rest ih =>
      obtain ⟨q, hq, hbad⟩ := h
      rcases p with ⟨cid, cfg⟩
      rcases hl : dictLookup cfg "transport" with _ | v
      · exact ⟨"The \x27transport\x27 section is missed in " ++ cid ++ " client.",
          by simp [checkClients, hl]⟩
      · rcases hv : valInRegistry v with _ | _
        · exact ⟨"The \x27" ++ displayVal v ++ "\x27 transport is unknown.",
            by simp [checkClients, hl, hv]⟩
        · have hqr : q ∈ rest := by
            rcases List.mem_cons.mp hq with he | hm
            · exfalso
              rw [he] at hbad
              simp only [cfgTransportOk, hl, hv] at hbad
              cases hbad
            · exact hm
          obtain ⟨m, hm2⟩ := ih ⟨q, hqr, hbad⟩
          exact ⟨m, by simp [checkClients, hl, hv, hm2]⟩

/-- C6 (amended): a client declaring an unknown transport kind (or
omitting the `transport` key) makes startup exit with status 1 and zero
`connect()` calls; the diagnostic names the offending client id when the
`transport` key is missing, but for an unknown kind it names only the
kind, not the client. -/
theorem c6_abort_amended :
    (∀ (clients : List (String × Cfg)) (rulesJ : List JVal),
        (∃ p ∈ clients, cfgTransportOk p.2 = false) →
        ∃ m, runStartup clients rulesJ = (.exit1 m, []))
    ∧ (∀ (cid : String) (cfg : Cfg) (rulesJ : List JVal),
        dictLookup cfg "transport" = none →
        runStartup [(cid, cfg)] rulesJ
          = (.exit1 ("The \x27transport\x27 section is missed in "
                     ++ cid ++ " client."), []))
    ∧ (∀ (cid k : String) (cfg : Cfg) (rulesJ : List JVal),
        dictLookup cfg "transport" = some (.js (.str k)) →
        _transports.contains k = false →
        runStartup [(cid, cfg)] rulesJ
          = (.exit1 ("The \x27" ++ k ++ "\x27 transport is unknown."), [])) := by
  refine ⟨?_, ?_, ?_⟩
  · intro clients rulesJ h
    obtain ⟨m, hm⟩ := checkClients_fatal clients h
    exact ⟨m, by simp [runStartup, Forwarder.validate, hm]⟩
  · intro cid cfg rulesJ hl
    simp [runStartup, Forwarder.validate, checkClients, hl]
  · intro cid k cfg rulesJ hl hk
    have hk2 : ¬ k ∈ _transports := by simpa [List.contains] using hk
    simp [runStartup, Forwarder.validate, checkClients, hl, valInRegistry, hk2,
      displayVal, jdisplay]

/-- C6 (counterexample): the claim states `Forwarder.validate` reports
the offending client.  For client `A` declaring the unknown kind
`xmpp`, startup does exit with status 1 and zero connections (first
conjunct), but the diagnostic is `The \x27xmpp\x27 transport is
unknown.` — it never mentions client `A` (second conjunct). -/
theorem c6_unknown_kind_counterexample :
    runStartup [("A", cfgUnknown)] []
      = (.exit1 "The \x27xmpp\x27 transport is unknown.", [])
    ∧ containsSubstr "The \x27xmpp\x27 transport is unknown." "A" = false :=
  ⟨rfl, by decide⟩

/-- C6 witness: the amended theorem applied at a concrete input. -/
theorem c6_abort_amended_witness :
    dictLookup cfgUnknown "transport" = some (.js (.str "xmpp"))
    ∧ _transports.contains "xmpp" = false
    ∧ runStartup [("B", cfgUnknown)] []
      = (.exit1 "The \x27xmpp\x27 transport is unknown.", []) :=
  ⟨rfl, by decide,
   c6_abort_amended.2.2 "B" "xmpp" cfgUnknown [] rfl (by decide)⟩

/-- If some rule object is structurally malformed, the rules loop of
`Forwarder.validate` raises. -/
theorem validateRules_raises (ids : List String) (js : List JVal)
    (h : ∃ j ∈ js, ruleWellFormed j = false) :
    ∃ e, validateRules ids js = .error e := by
  induction js with
  | nil => simp at h
  | cons j rest ih =>
      by_cases hj : ruleWellFormed j = true
      · have hrest : ∃ x ∈ rest, ruleWellFormed x = false := by
          obtain ⟨q, hq, hb⟩ := h
          rcases List.mem_cons.mp hq with he | hm
          · rw [he, hj] at hb
            cases hb
          · exact ⟨q, hm, hb⟩
        obtain ⟨e, he⟩ := ih hrest
        simp only [ruleWellFormed, Bool.and_eq_true] at hj
        obtain ⟨⟨hsch, hf'⟩, hts'⟩ := hj
        rcases hf : split1 (decodeRule j).from_ with _ | ⟨fc, fcid⟩
        · rw [hf] at hf'
          simp at hf'
        rcases hts : split1 (decodeRule j).send_to with _ | ⟨tc, tcid⟩
        · rw [hts] at hts'
          simp at hts'
        refine ⟨e, ?_⟩
        simp only [validateRules, hsch, if_true, hf, hts]
        by_cases h1 : fcid ∈ ids <;> by_cases h2 : tcid ∈ ids <;>
          simp [h1, h2, he, Except.map]
      · rcases hsch : ruleSchemaOk j with _ | _
        · exact ⟨.validationError j, by simp [validateRules, hsch]⟩
        · rcases hf : split1 (decodeRule j).from_ with _ | ⟨fc, fcid⟩
          · exact ⟨.valueError, by simp [validateRules, hsch, hf]⟩
          · rcases hts : split1 (decodeRule j).send_to with _ | ⟨tc, tcid⟩
            · exact ⟨.valueError, by simp [validateRules, hsch, hf, hts]⟩
            · exfalso
              exact hj (by simp [ruleWellFormed, hsch, hf, hts])

/-- C9 (amended): a structurally malformed rule — one failing the rule
schema, or one whose `from`/`send_to` contains no `@` — makes startup
abort by a propagating exception before any `connect()` call; for a
schema-invalid rule the raised `ValidationError` carries the offending
rule, but the `ValueError` of an unsplittable endpoint names nothing. -/
theorem c9_abort_amended :
    (∀ (clients : List (String × Cfg)) (rulesJ : List JVal),
        checkClients clients = none →
        (∃ j ∈ rulesJ, ruleWellFormed j = false) →
        ∃ e, runStartup clients rulesJ = (.raised e, []))
    ∧ (∀ (ids : List String) (j : JVal) (rest : List JVal),
        ruleSchemaOk j = false →
        validateRules ids (j :: rest) = .error (.validationError j)) := by
  constructor
  · intro clients rulesJ hc h
    obtain ⟨e, he⟩ := validateRules_raises (clients.map Prod.fst) rulesJ h
    exact ⟨e, by simp [runStartup, Forwarder.validate, hc, he]⟩
  · intro ids j rest hsch
    simp [validateRules, hsch]

/-- C9 (counterexample): the claim requires a diagnostic naming the
offending rule.  For the schema-valid rule `\x7bfrom: "x", send_to:
"#c@A"\x7d` (no `@` in `from`), startup does abort before any
`connect()` (first conjunct), but by a bare `ValueError` that does not
name the rule (second conjunct). -/
theorem c9_no_at_counterexample :
    runStartup [("A", cfgIrcA)] [jx] = (.raised PyErr.valueError, [])
    ∧ ¬ errNamesRule PyErr.valueError jx :=
  ⟨rfl, by simp [errNamesRule]⟩

/-- C9 witness: the amended theorem applied at a concrete input. -/
theorem c9_abort_amended_witness :
    checkClients [("A", cfgIrcA)] = none
    ∧ (∃ j ∈ [jx], ruleWellFormed j = false)
    ∧ ∃ e, runStartup [("A", cfgIrcA)] [jx] = (.raised e, []) :=
  ⟨rfl, ⟨jx, List.Mem.head _, rfl⟩,
   c9_abort_amended.1 [("A", cfgIrcA)] [jx] rfl ⟨jx, List.Mem.head _, rfl⟩⟩

/-- Setting a key makes it present with the new value. -/
theorem dictLookup_set_self (d : Cfg) (k : String) (v : CfgVal) :
    dictLookup (dictSet d k v) k = some v := by
  induction d with
  | nil => simp [dictSet, dictLookup]
  | cons p rest ih =>
      rcases p with ⟨k2, v2⟩
      by_cases h : k2 = k <;> simp [dictSet, dictLookup, h, ih]

/-- Setting a key leaves every other key's value unchanged. -/
theorem dictLookup_set_other (d : Cfg) (k key : String) (v : CfgVal)
    (h : key ≠ k) :
    dictLookup (dictSet d k v) key = dictLookup d key := by
  have hk : ¬ k = key := fun e => h (Eq.symm e)
  induction d with
  | nil => simp [dictSet, dictLookup, hk]
  | cons p rest ih =>
      rcases p with ⟨k2, v2⟩
      by_cases h2 : k2 = k
      · subst h2
        simp [dictSet, dictLookup, hk]
      · simp [dictSet, dictLookup, h2, ih]

/-- A configuration whose declared kind is a string can be inverted back
to its `transport` entry. -/
theorem cfgTransportKind_lookup (cfg : Cfg) (k : String)
    (hk : cfgTransportKind cfg = some k) :
    dictLookup cfg "transport" = some (.js (.str k)) := by
  rw [cfgTransportKind] at hk
  rcases hl : dictLookup cfg "transport" with _ | v
  · rw [hl] at hk
    cases hk
  · rw [hl] at hk
    rcases v with j | ⟨a, b⟩
    · rcases j with s | n | b2 | _ | xs | fs <;> simp_all
    · simp_all

/-- C10 (confirmed): constructing a `Forwarder` rewrites the clients
mapping in place — every client's configuration dict gains the key
`"client"` holding the transport instantiated from that client's
declared kind and id, and every other key of every configuration keeps
its value. -/
theorem c10_init_mutation (clients : List (String × Cfg))
    (h : ∀ p ∈ clients, cfgInitOk p.2 = true) :
    Forwarder.init clients
      = .ok (clients.map (fun p =>
          (p.1, dictSet p.2 "client"
            (.tobj ((cfgTransportKind p.2).getD "") p.1))))
    ∧ ∀ p ∈ clients,
        dictLookup (dictSet p.2 "client"
            (.tobj ((cfgTransportKind p.2).getD "") p.1)) "client"
          = some (.tobj ((cfgTransportKind p.2).getD "") p.1)
        ∧ ∀ key, key ≠ "client" →
            dictLookup (dictSet p.2 "client"
                (.tobj ((cfgTransportKind p.2).getD "") p.1)) key
              = dictLookup p.2 key := by
  constructor
  · induction clients with
    | nil => rfl
    | cons p rest ih =>
        have hp := h p (List.mem_cons_self p rest)
        have ihr := ih (fun x hx => h x (List.mem_cons_of_mem p hx))
        rcases p with ⟨cid, cfg⟩
        rcases hk : cfgTransportKind cfg with _ | k
        · rw [cfgInitOk, hk] at hp
          cases hp
        · have hreg : k ∈ _transports := by
            rw [cfgInitOk, hk] at hp
            simpa [List.contains] using hp
          have hl := cfgTransportKind_lookup cfg k hk
          simp [Forwarder.init, hl, hreg, ihr, Except.map, hk]
  · intro p _
    exact ⟨dictLookup_set_self p.2 "client" _,
      fun key hkey => dictLookup_set_other p.2 "client" key _ hkey⟩

/-- A client configuration with a registered transport and one further
connection parameter. -/
def cfgIrcFull : Cfg :=
  [("transport", .js (.str "irc")), ("server", .js (.str "irc.example.org"))]

/-- C10 witness: the theorem applied to one concrete client — the
`client` key is added and `transport`/`server` keep their values. -/
theorem c10_init_mutation_witness :
    (∀ p ∈ [("A", cfgIrcFull)], cfgInitOk p.2 = true)
    ∧ Forwarder.init [("A", cfgIrcFull)]
      = .ok [("A", [("transport", .js (.str "irc")),
                    ("server", .js (.str "irc.example.org")),
                    ("client", .tobj "irc" "A")])] :=
  ⟨by decide,
   (c10_init_mutation [("A", cfgIrcFull)] (by decide)).1.trans rfl⟩

end Msgforwarder
